/-
Verification of the authentication/session core of the repository
(src/hw_13_env): token issuance and verification (src/services/auth.py),
session resolution, refresh rotation and email confirmation
(src/routes/auth.py, src/repository/users.py), and role gating
(src/services/roles.py, src/entity/models.py).

The Python code is shallowly embedded: JWTs are modelled as a claim set
paired with the signing key (signature verification = key equality,
which is what HS256 verification decides); `datetime.utcnow()` is an
explicit `now : Nat` in seconds; the database session is an explicit
`List User` passed in and returned where the code commits; raised
exceptions become `Except PyError` results.  Timedeltas: 15 minutes =
900 s, 1 day = 86400 s, 7 days = 604800 s.
-/
import Mathlib

set_option linter.unusedVariables false

/-- `class Role(enum.Enum)` in src/entity/models.py: admin, moderator, user. -/
inductive Role where
  | admin
  | moderator
  | user
deriving DecidableEq, Repr

/-- A raised Python exception, as observed by the caller.
`httpError c d` is `HTTPException(status_code=c, detail=d)`;
`attributeError` and `keyError` are the builtin exceptions (their
carried message text is abstracted to the attribute / key name involved,
since nothing in the code inspects it). -/
inductive PyError where
  | httpError (statusCode : Nat) (detail : String)
  | attributeError (attr : String)
  | keyError (key : String)
deriving DecidableEq, Repr

/-- A JWT claim set as built by src/services/auth.py: the claim keys used
across the boundary are `sub`, `scope`, `iat`, `exp`; any further
caller-supplied claims (e.g. the `test` claim added at login) are kept in
`extra`.  `none` means the key is absent from the payload dict
(subscripting an absent key raises `KeyError`). -/
structure Payload where
  sub : Option String
  scope : Option String
  iat : Option Nat
  exp : Option Nat
  extra : List (String × String)
deriving DecidableEq, Repr

/-- The payload of an empty data dict. -/
def Payload.empty : Payload := ⟨none, none, none, none, []⟩

/-- A serialized JWT: `jwt.encode(payload, key, algorithm)` signs the claim
set with the key; the pair determines the string, and HS256 signature
verification succeeds exactly when the verifying key equals the signing
key.  Tokens not produced by any `jwt.encode` (malformed strings) verify
under no key and are covered by decoding with a mismatched key. -/
structure Token where
  payload : Payload
  key : String
deriving DecidableEq, Repr

/-- Why `jose.jwt.decode` raises `JWTError`. -/
inductive JoseError where
  | invalidSignature
  | expired
deriving DecidableEq, Repr

/-- `jose.jwt.decode(token, key, algorithms)`: checks the signature, then
(when an `exp` claim is present) checks expiry with zero leeway —
`ExpiredSignatureError` (a `JWTError`) is raised iff `exp < now`. -/
def jwtDecode (t : Token) (key : String) (now : Nat) : Except JoseError Payload :=
  if t.key ≠ key then .error .invalidSignature
  else
    match t.payload.exp with
    | some e => if e < now then .error .expired else .ok t.payload
    | none => .ok t.payload

namespace config

/-- Modelled from the spec: the process-wide secret signing key of the
config surface (src/conf/config.py is not part of the snapshot; the spec
describes it as a secret key loaded once at startup, immutable
thereafter).  Only its equality with itself matters to the model. -/
def SECRET_KEY : String := "process-wide secret key"

end config

/-- The `users` table row (src/entity/models.py lines 30-41), restricted
to the columns the authentication core reads or writes.  `refresh_token`
stores the serialized token string (nullable); in the model it is the
`Token` it deserializes to, compared — as the Python compares strings —
by equality. -/
structure User where
  id : Nat
  username : String
  email : String
  password : String
  refresh_token : Option Token
  role : Role
  confirmed : Bool
deriving DecidableEq, Repr

namespace repository_users

/-- `get_user_by_email` (src/repository/users.py lines 12-23):
`select(User).filter_by(email=email)` then `scalar_one_or_none()`. -/
def get_user_by_email (email : String) (db : List User) : Option User :=
  db.find? (fun u => u.email = email)

/-- `update_token` (lines 56-67): sets the `refresh_token` column of the row
and commits.  The row is identified by its unique email. -/
def update_token (user : User) (token : Option Token) (db : List User) : List User :=
  db.map (fun u => if u.email = user.email then { u with refresh_token := token } else u)

/-- `confirm_email` (lines 70-86): looks the user up by email; if found,
sets `confirmed = True` and commits; else raises 404 "User not found". -/
def confirm_email (email : String) (db : List User) : Except PyError Unit × List User :=
  match get_user_by_email email db with
  | some _ =>
    (.ok (), db.map (fun u => if u.email = email then { u with confirmed := true } else u))
  | none => (.error (.httpError 404 "User not found"), db)

end repository_users

namespace Auth

/-- The attributes the `Auth` class (src/services/auth.py lines 15-183)
defines are `pwd_context`, `oauth2_scheme` and its methods; it defines no
attribute named `SECRET_KEY`, and `auth_service = Auth()` sets no instance
attributes.  The lookup `self.SECRET_KEY` on line 130 therefore resolves
to nothing: this is `none`. -/
def selfSecretKey : Option String := none

/-- `Auth.create_access_token` (src/services/auth.py lines 47-67):
`if expires_delta:` is a truthiness test, so `None` and `0` both fall to
the 15-minute default; sets `iat`, `exp`, `scope="access_token"` and signs
with `config.SECRET_KEY`. -/
def create_access_token (data : Payload) (expires_delta : Option Nat) (now : Nat) : Token :=
  let expire :=
    match expires_delta with
    | some d => if d ≠ 0 then now + d else now + 900
    | none => now + 900
  ⟨{ data with iat := some now, exp := some expire, scope := some "access_token" },
   config.SECRET_KEY⟩

/-- `Auth.create_refresh_token` (lines 69-89): same shape with a 7-day
default and `scope="refresh_token"`. -/
def create_refresh_token (data : Payload) (expires_delta : Option Nat) (now : Nat) : Token :=
  let expire :=
    match expires_delta with
    | some d => if d ≠ 0 then now + d else now + 604800
    | none => now + 604800
  ⟨{ data with iat := some now, exp := some expire, scope := some "refresh_token" },
   config.SECRET_KEY⟩

/-- `Auth.create_email_token` (lines 145-160): no lifetime parameter —
`exp` is always one day out; sets `iat` and `exp` only (no `scope` claim
is added). -/
def create_email_token (data : Payload) (now : Nat) : Token :=
  ⟨{ data with iat := some now, exp := some (now + 86400) }, config.SECRET_KEY⟩

/-- `Auth.decode_refresh_token` (lines 91-108): decode under
`config.SECRET_KEY` (a `JWTError` becomes 401 "Could not validate
credentials"); then `payload[scope]` (KeyError when absent, uncaught —
`except JWTError` does not catch it); scope equal to `refresh_token`
returns `payload[sub]`, any other scope raises 401 "Invalid scope for
token" (raised inside the `try`, but not a `JWTError`, so it escapes). -/
def decode_refresh_token (t : Token) (now : Nat) : Except PyError String :=
  match jwtDecode t config.SECRET_KEY now with
  | .error _ => .error (.httpError 401 "Could not validate credentials")
  | .ok payload =>
    match payload.scope with
    | none => .error (.keyError "scope")
    | some s =>
      if s = "refresh_token" then
        match payload.sub with
        | none => .error (.keyError "sub")
        | some email => .ok email
      else .error (.httpError 401 "Invalid scope for token")

/-- The 401 "Could not validate credentials" exception built at
src/services/auth.py lines 122-126. -/
def credentialsException : PyError := .httpError 401 "Could not validate credentials"

/-- `Auth.get_current_user` (lines 110-143), given the bearer token, the
database and the clock.  Line 130 evaluates `self.SECRET_KEY` before
anything else in the `try` block; since the `Auth` object has no such
attribute this raises `AttributeError`, which `except JWTError` does not
catch, so it propagates out of the function.  The remainder of the body
(decode, scope check, user lookup) is modelled for fidelity but is
unreachable as the source stands. -/
def get_current_user (token : Token) (db : List User) (now : Nat) : Except PyError User :=
  match selfSecretKey with
  | none => .error (.attributeError "SECRET_KEY")
  | some key =>
    match jwtDecode token key now with
    | .error _ => .error credentialsException
    | .ok payload =>
      match payload.scope with
      | none => .error (.keyError "scope")
      | some s =>
        if s = "access_token" then
          match payload.sub with
          | none => .error (.keyError "sub")
          | some email =>
            match repository_users.get_user_by_email email db with
            | none => .error credentialsException
            | some u => .ok u
        else .error credentialsException

/-- `Auth.get_email_from_token` (lines 162-179): decode under
`config.SECRET_KEY` (a `JWTError` becomes 422 "Invalid token for email
verification") and return `payload[sub]` — no scope check of any kind;
`payload[sub]` on a scope-free payload missing `sub` raises KeyError,
which the `except JWTError` clause does not catch. -/
def get_email_from_token (t : Token) (now : Nat) : Except PyError String :=
  match jwtDecode t config.SECRET_KEY now with
  | .error _ => .error (.httpError 422 "Invalid token for email verification")
  | .ok payload =>
    match payload.sub with
    | none => .error (.keyError "sub")
    | some email => .ok email

end Auth

/-- `str(e)` for the exceptions a route handler re-wraps:
`HTTPException.__str__` is "status_code: detail"; for the builtin
exceptions the message text is abstracted by the attribute / key name
(no code compares these strings, only the resulting responses). -/
def pyStr : PyError → String
  | .httpError c d => toString c ++ ": " ++ d
  | .attributeError a => "attribute error: " ++ a
  | .keyError k => "key error: " ++ k

/-- The `except Exception as e: raise HTTPException(500, detail=str(e))`
wrapper that every handler in src/routes/auth.py ends with.
`HTTPException` subclasses `Exception`, so the 4xx errors raised inside
the `try` are also caught and re-raised as 500s. -/
def wrap500 {α : Type} : Except PyError α → Except PyError α
  | .ok a => .ok a
  | .error e => .error (.httpError 500 (pyStr e))

namespace routes_auth

/-- `refresh_token` handler (src/routes/auth.py lines 78-107), given the
presented credential, the database and the clock; returns the response
(or error) together with the database as left by the commits of the handler.
Body: decode the refresh token to an email; fetch the user
(`user.refresh_token` on a missing user would raise AttributeError); if
the stored token differs from the presented one, clear the stored token
and raise 401 "Invalid refresh token"; else issue fresh access and
refresh tokens with default lifetimes, store the new refresh token and
return both.  Everything is inside the blanket `except Exception`
wrapper. -/
def refresh_token_route (t : Token) (db : List User) (now : Nat) :
    Except PyError (Token × Token) × List User :=
  match Auth.decode_refresh_token t now with
  | .error e => (wrap500 (.error e), db)
  | .ok email =>
    match repository_users.get_user_by_email email db with
    | none => (wrap500 (.error (.attributeError "refresh_token")), db)
    | some user =>
      if user.refresh_token = some t then
        let access := Auth.create_access_token { Payload.empty with sub := some email } none now
        let refresh := Auth.create_refresh_token { Payload.empty with sub := some email } none now
        (.ok (access, refresh), repository_users.update_token user (some refresh) db)
      else
        (wrap500 (.error (.httpError 401 "Invalid refresh token")),
         repository_users.update_token user none db)

/-- src/repository/users.py defines `get_user_by_email`, `create_user`,
`update_token` and `confirm_email` — no attribute named
`confirmed_email`.  The lookup `repositories_users.confirmed_email` on
line 132 of src/routes/auth.py therefore raises `AttributeError`. -/
def usersModuleConfirmedEmailAttr :
    Option (String → List User → Except PyError Unit × List User) := none

/-- `confirmed_email` handler (src/routes/auth.py lines 110-135): token →
email via `get_email_from_token`; fetch user; 400 "Verification error" if
none; no-op message if already confirmed; else call
`repositories_users.confirmed_email` — an attribute the module does not
have, so this raises AttributeError.  All failures are re-wrapped as 500
by the blanket `except Exception`. -/
def confirmed_email_route (t : Token) (db : List User) (now : Nat) :
    Except PyError String × List User :=
  match Auth.get_email_from_token t now with
  | .error e => (wrap500 (.error e), db)
  | .ok email =>
    match repository_users.get_user_by_email email db with
    | none => (wrap500 (.error (.httpError 400 "Verification error")), db)
    | some user =>
      if user.confirmed then (.ok "Your email is already confirmed", db)
      else
        match usersModuleConfirmedEmailAttr with
        | none => (wrap500 (.error (.attributeError "confirmed_email")), db)
        | some f =>
          match f email db with
          | (.ok _, db2) => (.ok "Email confirmed", db2)
          | (.error e, db2) => (wrap500 (.error e), db2)

/-- `request_email` handler (src/routes/auth.py lines 138-164): fetches
the user by the requested email and tests `user.confirmed` BEFORE any
None-check — on an unknown address this dereferences None and raises
AttributeError, re-wrapped as a 500 by the blanket handler.  The `if
user:` guard only comes after. -/
def request_email_route (email : String) (db : List User) : Except PyError String :=
  match repository_users.get_user_by_email email db with
  | none => wrap500 (.error (.attributeError "confirmed"))
  | some user =>
    if user.confirmed then .ok "Your email is already confirmed"
    else .ok "Check your email for confirmation."

end routes_auth

/-- `RoleAccess` (src/services/roles.py): configured with the list of
allowed roles at route-registration time. -/
structure RoleAccess where
  allowed_roles : List Role

/-- `RoleAccess.__call__` (lines 12-22), applied to the resolved user:
raises 403 when `user.role not in self.allowed_roles`, otherwise returns
with no side effect. -/
def RoleAccess.call (ra : RoleAccess) (user : User) : Except PyError Unit :=
  if user.role ∈ ra.allowed_roles then .ok ()
  else .error (.httpError 403 "Access forbidden: User does not have required role")

/-! ### Concrete fixtures used in closed evaluations -/

/-- An unconfirmed plain user. -/
def alice : User :=
  ⟨1, "alice", "alice@example.com", "pwhash", none, Role.user, false⟩

/-- A confirmed administrator. -/
def adminUser : User :=
  ⟨2, "boss", "boss@example.com", "pwhash", none, Role.admin, true⟩

/-- Access token for alice issued at t = 0 with the default lifetime. -/
def accessTokAlice : Token :=
  Auth.create_access_token { Payload.empty with sub := some "alice@example.com" } none 0

/-- Email-confirmation token for alice issued at t = 0. -/
def emailTokAlice : Token :=
  Auth.create_email_token { Payload.empty with sub := some "alice@example.com" } 0

/-- Refresh token A for bob, issued at t = 0. -/
def refreshTokA : Token :=
  Auth.create_refresh_token { Payload.empty with sub := some "bob@example.com" } none 0

/-- Refresh token B for bob, issued at t = 5 (so B differs from A). -/
def refreshTokB : Token :=
  Auth.create_refresh_token { Payload.empty with sub := some "bob@example.com" } none 5

/-- Bob, whose stored refresh token is B. -/
def bob : User :=
  ⟨3, "bob", "bob@example.com", "pwhash", some refreshTokB, Role.user, true⟩

/-- Refresh token for carol, issued at t = 0. -/
def refreshTokC : Token :=
  Auth.create_refresh_token { Payload.empty with sub := some "carol@example.com" } none 0

/-- Carol, whose stored refresh token is exactly `refreshTokC`. -/
def carol : User :=
  ⟨4, "carol", "carol@example.com", "pwhash", some refreshTokC, Role.user, true⟩

/-- A token signed with a key other than the configured secret: decoding
it under `config.SECRET_KEY` fails signature verification, which models
any forged or tampered bearer string. -/
def badKeyTok : Token :=
  ⟨{ Payload.empty with
      sub := some "alice@example.com"
      scope := some "refresh_token"
      exp := some 1000 },
   "attacker key"⟩

/-- Access token for alice issued at t = 0 with an explicit 5-second
lifetime, hence expired at any time after t = 5. -/
def shortAccessTokAlice : Token :=
  Auth.create_access_token { Payload.empty with sub := some "alice@example.com" } (some 5) 0

/-- Refresh token for alice issued at t = 0 with an explicit 5-second
lifetime. -/
def shortRefreshTokAlice : Token :=
  Auth.create_refresh_token { Payload.empty with sub := some "alice@example.com" } (some 5) 0

/-! ### Helper lemmas -/

/-- Looking a user up after `update_token` returns the same row as
before, with its `refresh_token` column rewritten when its email matches
the updated user (emails are the unique row identity, and `update_token`
does not change them). -/
theorem get_user_by_email_update_token (e : String) (u : User) (tok : Option Token)
    (db : List User) :
    repository_users.get_user_by_email e (repository_users.update_token u tok db) =
      (repository_users.get_user_by_email e db).map
        (fun v => if v.email = u.email then { v with refresh_token := tok } else v) := by
  induction db with
  | nil => rfl
  | cons v vs ih =>
    have hemail : (if v.email = u.email then { v with refresh_token := tok } else v).email
        = v.email := by
      by_cases h2 : v.email = u.email <;> simp [h2]
    simp only [repository_users.get_user_by_email, repository_users.update_token,
      List.map_cons, List.find?] at *
    rw [hemail]
    by_cases h : v.email = e
    · simp [h]
    · simp [h, ih]



/-! ### Claims -/

/-- C1: the claim states that `get_current_user` returns the stored
principal whenever the signature verifies, the scope is access and the
principal exists, and otherwise fails with 401 "Could not validate
credentials", never any other error.  The code instead evaluates
`self.SECRET_KEY` — an attribute the `Auth` object does not have — so
EVERY call, whatever the token, database or clock, raises
`AttributeError` (escaping the `except JWTError` clause): it never
returns a principal and never raises the 401. -/
theorem get_current_user_always_attribute_error
    (token : Token) (db : List User) (now : Nat) :
    Auth.get_current_user token db now = .error (.attributeError "SECRET_KEY") := rfl

/-- C2: the claim states that confirming with a still-valid token for a
known unconfirmed principal sets the confirmation flag and succeeds.
The handler instead looks up `repositories_users.confirmed_email`, an
attribute the module does not define (the repository function is named
`confirm_email`), so the call raises `AttributeError`, surfaced by the
blanket handler as a 500: the flag stays false and the database is
unchanged.  The already-confirmed no-op path does work; and the
repository function `confirm_email` itself, applied directly at the same
input, performs exactly the confirmation the claim describes — the route
merely misspells its name. -/
theorem confirmed_email_route_crashes_instead_of_confirming :
    routes_auth.confirmed_email_route emailTokAlice [alice] 10 =
      (.error (.httpError 500 (pyStr (.attributeError "confirmed_email"))), [alice])
    ∧ routes_auth.confirmed_email_route emailTokAlice [{ alice with confirmed := true }] 10 =
      (.ok "Your email is already confirmed", [{ alice with confirmed := true }])
    ∧ repository_users.confirm_email "alice@example.com" [alice] =
      (.ok (), [{ alice with confirmed := true }]) :=
  ⟨rfl, rfl, rfl⟩

/-- C7: the claim (and the spec, explicitly deviating from the source)
requires a not-found guard before any access to the confirmation flag in
`request_email`.  The code dereferences `user.confirmed` first: for an
address absent from the store the lookup returns `None`, the attribute
access raises `AttributeError`, and the blanket handler surfaces it as a
500 — not the required not-found failure. -/
theorem request_email_crashes_on_unknown_address :
    routes_auth.request_email_route "ghost@example.com" [alice] =
      .error (.httpError 500 (pyStr (.attributeError "confirmed"))) := rfl

/-- C8: expiry behaviour at a concrete expired token (issued at t = 0
with a 5-second lifetime, presented at t = 6).  `decode_refresh_token`
and `get_email_from_token` fail as the claim says — the expiry is
detected by `jwt.decode` and collapsed into their generic failure
responses — and at the boundary t = 5 (current time = `exp`) decoding
does not fail for expiry.  But `get_current_user` diverges from the
claim: its failure on the expired token is the `SECRET_KEY`
AttributeError, not an expiry-class error, and the unexpired token at
t = 0 fails identically. -/
theorem expiry_behaviour_of_verification :
    Auth.decode_refresh_token shortRefreshTokAlice 6 =
      .error (.httpError 401 "Could not validate credentials")
    ∧ Auth.get_email_from_token shortRefreshTokAlice 6 =
      .error (.httpError 422 "Invalid token for email verification")
    ∧ Auth.decode_refresh_token shortRefreshTokAlice 5 = .ok "alice@example.com"
    ∧ Auth.get_current_user shortAccessTokAlice [alice] 6 =
      .error (.attributeError "SECRET_KEY")
    ∧ Auth.get_current_user accessTokAlice [alice] 0 =
      .error (.attributeError "SECRET_KEY") :=
  ⟨rfl, rfl, rfl, rfl, rfl⟩

/-- C9: the role gate succeeds exactly on principals whose role belongs
to the configured allowed set, and fails with the 403 Forbidden response
exactly on the others; it has no other outcome and no side effect (it
returns a value and touches no state). -/
theorem role_gate_forbidden_iff_role_not_allowed (ra : RoleAccess) (u : User) :
    (u.role ∈ ra.allowed_roles → RoleAccess.call ra u = .ok ())
    ∧ (u.role ∉ ra.allowed_roles →
        RoleAccess.call ra u =
          .error (.httpError 403 "Access forbidden: User does not have required role")) := by
  constructor <;> intro h <;> simp [RoleAccess.call, h]

/-- Witness for C9: the scenario from the spec — a gate allowing
{admin, moderator} rejects a plain user with 403 and passes an admin. -/
theorem role_gate_forbidden_iff_role_not_allowed_witness :
    RoleAccess.call ⟨[Role.admin, Role.moderator]⟩ adminUser = .ok ()
    ∧ RoleAccess.call ⟨[Role.admin, Role.moderator]⟩ alice =
        .error (.httpError 403 "Access forbidden: User does not have required role") :=
  ⟨(role_gate_forbidden_iff_role_not_allowed ⟨[Role.admin, Role.moderator]⟩ adminUser).1
      (by decide),
   (role_gate_forbidden_iff_role_not_allowed ⟨[Role.admin, Role.moderator]⟩ alice).2
      (by decide)⟩

/-- C10: a lifetime override of 0 seconds is falsy under
`if expires_delta:`, so issuance with an explicit 0 behaves exactly like
issuance with no override: the access token expires 900 seconds after
issuance and the refresh token 604800 seconds after, never immediately. -/
theorem zero_lifetime_override_falls_back_to_default (data : Payload) (now : Nat) :
    Auth.create_access_token data (some 0) now = Auth.create_access_token data none now
    ∧ (Auth.create_access_token data (some 0) now).payload.exp = some (now + 900)
    ∧ Auth.create_refresh_token data (some 0) now = Auth.create_refresh_token data none now
    ∧ (Auth.create_refresh_token data (some 0) now).payload.exp = some (now + 604800) :=
  ⟨rfl, rfl, rfl, rfl⟩

/-- C3 counterexample: an access-scope token (valid signature, unexpired,
scope `access_token`) presented to the email-confirmation verification is
ACCEPTED — `get_email_from_token` returns its subject — refuting the
claim that a token issued for one scope is rejected by every other
verification. -/
theorem access_token_accepted_by_email_verification :
    Auth.get_email_from_token accessTokAlice 10 = .ok "alice@example.com" := rfl

/-- C3 amended: scope isolation holds only where a scope check exists.
A token that decodes under the secret key with scope `access_token` is
rejected by refresh verification with 401 "Invalid scope for token"; any
token at all fails access verification (`get_current_user` always
errors); but email-confirmation verification performs no scope check:
every token that decodes under the secret key and carries a subject —
whatever its scope — is accepted by `get_email_from_token`. -/
theorem scope_isolation_amended (t : Token) (p : Payload) (now : Nat) (db : List User)
    (hdec : jwtDecode t config.SECRET_KEY now = .ok p) :
    (p.scope = some "access_token" →
      Auth.decode_refresh_token t now = .error (.httpError 401 "Invalid scope for token"))
    ∧ (∀ e, p.sub = some e → Auth.get_email_from_token t now = .ok e)
    ∧ Auth.get_current_user t db now = .error (.attributeError "SECRET_KEY") := by
  refine ⟨?_, ?_, rfl⟩
  · intro hs
    simp [Auth.decode_refresh_token, hdec, hs]
  · intro e he
    simp [Auth.get_email_from_token, hdec, he]

/-- Witness for C3 amended, at the concrete access token for alice. -/
theorem scope_isolation_amended_witness :
    Auth.decode_refresh_token accessTokAlice 10 =
      .error (.httpError 401 "Invalid scope for token")
    ∧ Auth.get_email_from_token accessTokAlice 10 = .ok "alice@example.com"
    ∧ Auth.get_current_user accessTokAlice [] 10 = .error (.attributeError "SECRET_KEY") := by
  have h := scope_isolation_amended accessTokAlice accessTokAlice.payload 10 [] rfl
  exact ⟨h.1 rfl, h.2.1 "alice@example.com" rfl, h.2.2⟩

/-- C4 counterexample: presenting stale refresh token A while bob has
token B stored does clear the stored value, but the caller-visible
failure is a 500 (the blanket `except Exception` re-wraps the 401), not
the claimed Unauthenticated response. -/
theorem stale_refresh_reported_as_500 :
    routes_auth.refresh_token_route refreshTokA [bob] 10 =
      (.error (.httpError 500 "401: Invalid refresh token"),
       [{ bob with refresh_token := none }])
    ∧ PyError.httpError 500 "401: Invalid refresh token" ≠
        PyError.httpError 401 "Invalid refresh token" :=
  ⟨rfl, by decide⟩

/-- The access token the rotation handler issues: default lifetime, data
`{"sub": email}` (src/routes/auth.py line 102). -/
def rotatedAccess (email : String) (now : Nat) : Token :=
  Auth.create_access_token { Payload.empty with sub := some email } none now

/-- The refresh token the rotation handler issues and stores: default
lifetime, data `{"sub": email}` (src/routes/auth.py line 103). -/
def rotatedRefresh (email : String) (now : Nat) : Token :=
  Auth.create_refresh_token { Payload.empty with sub := some email } none now

/-- C4 amended: for a presented token that decodes with scope refresh to
a stored principal — when it differs from the stored refresh-token value,
the stored value is cleared (reading the row back gives no refresh token)
and the call fails, surfaced by the blanket handler as a 500 wrapping the
401 "Invalid refresh token"; when it equals the stored value, a fresh
default-lifetime access token and refresh token are issued, the new
refresh token overwrites the stored value, and both are returned. -/
theorem refresh_rotation_amended (t : Token) (db : List User) (now : Nat)
    (email : String) (u : User)
    (hdec : Auth.decode_refresh_token t now = .ok email)
    (hu : repository_users.get_user_by_email email db = some u) :
    (u.refresh_token ≠ some t →
      routes_auth.refresh_token_route t db now =
        (.error (.httpError 500 "401: Invalid refresh token"),
         repository_users.update_token u none db)
      ∧ repository_users.get_user_by_email email (repository_users.update_token u none db)
          = some { u with refresh_token := none })
    ∧ (u.refresh_token = some t →
      routes_auth.refresh_token_route t db now =
        (.ok (rotatedAccess email now, rotatedRefresh email now),
         repository_users.update_token u (some (rotatedRefresh email now)) db)
      ∧ repository_users.get_user_by_email email
          (repository_users.update_token u (some (rotatedRefresh email now)) db)
          = some { u with refresh_token := some (rotatedRefresh email now) }) := by
  constructor
  · intro hne
    refine ⟨?_, ?_⟩
    · simp [routes_auth.refresh_token_route, hdec, hu, hne, wrap500, pyStr]
      rfl
    · rw [get_user_by_email_update_token, hu]
      simp
  · intro heq
    refine ⟨?_, ?_⟩
    · simp [routes_auth.refresh_token_route, hdec, hu, heq, rotatedAccess, rotatedRefresh]
    · rw [get_user_by_email_update_token, hu]
      simp

/-- Witness for C4 amended: the mismatch branch at bob presenting stale
token A, and the match branch at carol presenting her stored token. -/
theorem refresh_rotation_amended_witness :
    (routes_auth.refresh_token_route refreshTokA [bob] 10 =
      (.error (.httpError 500 "401: Invalid refresh token"),
       repository_users.update_token bob none [bob])
     ∧ repository_users.get_user_by_email "bob@example.com"
         (repository_users.update_token bob none [bob])
         = some { bob with refresh_token := none })
    ∧ (routes_auth.refresh_token_route refreshTokC [carol] 10 =
      (.ok (rotatedAccess "carol@example.com" 10, rotatedRefresh "carol@example.com" 10),
       repository_users.update_token carol (some (rotatedRefresh "carol@example.com" 10))
         [carol])
     ∧ repository_users.get_user_by_email "carol@example.com"
         (repository_users.update_token carol (some (rotatedRefresh "carol@example.com" 10))
           [carol])
         = some { carol with refresh_token := some (rotatedRefresh "carol@example.com" 10) }) :=
  ⟨(refresh_rotation_amended refreshTokA [bob] 10 "bob@example.com" bob rfl rfl).1
      (by decide),
   (refresh_rotation_amended refreshTokC [carol] 10 "carol@example.com" carol rfl rfl).2
      rfl⟩

/-- C5 counterexample: two token-verification failures that the caller
CAN tell apart.  A forged token fails refresh verification with 401
"Could not validate credentials", while an access-scope token fails the
same verification with 401 "Invalid scope for token" — and the same
forged token fails email verification with a 422 and a third message.
The three responses are pairwise distinct, refuting the claim that every
failing input yields one identical undistinguished response. -/
theorem verification_failures_distinguishable :
    Auth.decode_refresh_token badKeyTok 10 =
      .error (.httpError 401 "Could not validate credentials")
    ∧ Auth.decode_refresh_token accessTokAlice 10 =
      .error (.httpError 401 "Invalid scope for token")
    ∧ Auth.get_email_from_token badKeyTok 10 =
      .error (.httpError 422 "Invalid token for email verification")
    ∧ PyError.httpError 401 "Could not validate credentials" ≠
        PyError.httpError 401 "Invalid scope for token"
    ∧ PyError.httpError 401 "Could not validate credentials" ≠
        PyError.httpError 422 "Invalid token for email verification" :=
  ⟨rfl, rfl, rfl, by decide, by decide⟩

/-- C5 amended: failure responses are uniform only within a cause class
per operation.  Any `jwt.decode` failure (bad signature, malformed
string, expiry) makes `decode_refresh_token` answer 401 "Could not
validate credentials" and `get_email_from_token` answer 422 "Invalid
token for email verification"; but a scope mismatch in
`decode_refresh_token` is reported with the distinct 401 "Invalid scope
for token", so the caller can distinguish a scope mismatch from the
other causes, and the operations from each other. -/
theorem verification_failure_responses_amended (t : Token) (now : Nat) :
    (∀ err, jwtDecode t config.SECRET_KEY now = .error err →
      Auth.decode_refresh_token t now =
        .error (.httpError 401 "Could not validate credentials")
      ∧ Auth.get_email_from_token t now =
        .error (.httpError 422 "Invalid token for email verification"))
    ∧ (∀ p s, jwtDecode t config.SECRET_KEY now = .ok p → p.scope = some s →
        s ≠ "refresh_token" →
        Auth.decode_refresh_token t now =
          .error (.httpError 401 "Invalid scope for token")) := by
  constructor
  · intro err herr
    exact ⟨by simp [Auth.decode_refresh_token, herr],
           by simp [Auth.get_email_from_token, herr]⟩
  · intro p s hok hs hne
    simp [Auth.decode_refresh_token, hok, hs, hne]

/-- Witness for C5 amended: the forged token and the access-scope token
at concrete inputs. -/
theorem verification_failure_responses_amended_witness :
    (Auth.decode_refresh_token badKeyTok 10 =
      .error (.httpError 401 "Could not validate credentials")
     ∧ Auth.get_email_from_token badKeyTok 10 =
      .error (.httpError 422 "Invalid token for email verification"))
    ∧ Auth.decode_refresh_token accessTokAlice 10 =
      .error (.httpError 401 "Invalid scope for token") :=
  ⟨(verification_failure_responses_amended badKeyTok 10).1 .invalidSignature rfl,
   (verification_failure_responses_amended accessTokAlice 10).2
      accessTokAlice.payload "access_token" rfl rfl (by decide)⟩

/-- C6 counterexample: issuing an access token at t = 100 with an
explicit lifetime of 0 seconds yields `exp` = 1000 (the 15-minute
default), not 100 + 0, refuting the claim that an explicit lifetime
always gives exp = issuance + lifetime; and the email-confirmation
issuance has no lifetime parameter at all — its `exp` is always
issuance + 86400 (here 86500). -/
theorem lifetime_override_counterexample :
    (Auth.create_access_token Payload.empty (some 0) 100).payload.exp = some 1000
    ∧ some (1000 : Nat) ≠ some (100 + 0 : Nat)
    ∧ (Auth.create_email_token Payload.empty 100).payload.exp = some 86500 :=
  ⟨rfl, by decide, rfl⟩

/-- C6 amended: with no override the access token expires 900 s after
issuance, the refresh token 604800 s after, and the email-confirmation
token 86400 s after; access and refresh lifetimes are independently
overridable per call and a NONZERO override d gives exp = issuance + d
(a 0 override falls back to the default); the email-confirmation
lifetime is fixed — `create_email_token` takes no lifetime argument. -/
theorem token_lifetimes_amended (data : Payload) (now d : Nat) (hd : d ≠ 0) :
    (Auth.create_access_token data none now).payload.exp = some (now + 900)
    ∧ (Auth.create_refresh_token data none now).payload.exp = some (now + 604800)
    ∧ (Auth.create_email_token data now).payload.exp = some (now + 86400)
    ∧ (Auth.create_access_token data (some d) now).payload.exp = some (now + d)
    ∧ (Auth.create_refresh_token data (some d) now).payload.exp = some (now + d) := by
  refine ⟨rfl, rfl, rfl, ?_, ?_⟩ <;>
    simp [Auth.create_access_token, Auth.create_refresh_token, hd]

/-- Witness for C6 amended: concrete issuance at t = 0 with a 60-second
override. -/
theorem token_lifetimes_amended_witness :
    (Auth.create_access_token Payload.empty none 0).payload.exp = some 900
    ∧ (Auth.create_refresh_token Payload.empty none 0).payload.exp = some 604800
    ∧ (Auth.create_email_token Payload.empty 0).payload.exp = some 86400
    ∧ (Auth.create_access_token Payload.empty (some 60) 0).payload.exp = some 60
    ∧ (Auth.create_refresh_token Payload.empty (some 60) 0).payload.exp = some 60 :=
  token_lifetimes_amended Payload.empty 0 60 (by decide)
